import Mathlib

set_option autoImplicit false

namespace TikTokLearning

/-!
Shallow embedding of the viewport-driven playback synchronization engine of
src/index.tsx (functions setupTikTokObserver, setupSlideObserverForActiveTikTok,
startSlideshow, speakAndAdvance, stopSlideshow and the audio timeupdate
handler), together with proofs of the spec claims about it.
-/

/-- Mirror of the SlideData record of src/index.tsx: a slide is a narration
text line (lyrics) plus an image reference. -/
structure SlideData where
  lyrics : String
  imageSrc : String
  deriving Repr, DecidableEq

/-- Mirror of the TikTok record of src/index.tsx, restricted to the fields the
playback engine reads.  Optional string fields are
TypeScript values of type string-or-null. -/
structure TikTok where
  slides : List SlideData
  songSrc : Option String
  instrumentalSrc : Option String
  instrumentalId : Option String
  useBrowserTTS : Bool
  voiceName : Option String
  deriving Repr, DecidableEq

/-- Mirror of the check (!lyrics?.trim()) of src/index.tsx line 833: true
exactly when the text has no non-whitespace character.  The trimmed string is
empty if and only if every character is whitespace, which is how the test is
expressed here. -/
def isBlank (s : String) : Bool :=
  s.data.all (fun c => c.isWhitespace)

/-!
Model A: global playback state and the session resource machine.

The mutable globals of src/index.tsx lines 95-102 (isPlaying, currentAudio,
currentInstrumentalAudio, the speech-synthesis queue, activeTikTokContainer,
the slide observer binding) become an explicit state record.  Audio and
speech handles are represented by the identifier of the session that owns
them; `nextSid` is ghost instrumentation that numbers the sessions so that
the at-most-one-session invariant can be stated. -/
structure PlayState where
  isPlaying : Bool
  currentAudio : Option Nat
  currentInstrumentalAudio : Option Nat
  speechPending : Option Nat
  activeTikTokContainer : Option Nat
  slideObserverTarget : Option Nat
  nextSid : Nat
  deriving Repr, DecidableEq

/-- Observable side effects of the engine, used to record the order in which
resources are released and acquired and which commands reach the DOM, the
audio elements and the speech queue. -/
inductive Effect where
  | setPausedUI
  | clearPausedUI
  | pauseAudio (sid : Nat)
  | pauseInstrumental (sid : Nat)
  | cancelSpeech (sid : Nat)
  | acquireInstrumental (sid : Nat)
  | acquireAudio (sid : Nat)
  | queueUtterance (sid : Nat)
  | rebindSlideObserver (cid : Nat)
  | showError (msg : String)
  deriving Repr, DecidableEq

/-- Mirror of stopSlideshow (src/index.tsx lines 907-921): set isPlaying to
false, add the paused UI class, pause and null the narration audio handle if
present, pause and null the instrumental handle if present, and cancel speech
synthesis if it is speaking (modelled by a pending utterance). -/
def stopSlideshow (s : PlayState) : PlayState × List Effect :=
  let audioFx := match s.currentAudio with
    | some sid => [Effect.pauseAudio sid]
    | none => []
  let instrFx := match s.currentInstrumentalAudio with
    | some sid => [Effect.pauseInstrumental sid]
    | none => []
  let speechFx := match s.speechPending with
    | some sid => [Effect.cancelSpeech sid]
    | none => []
  ({ s with
      isPlaying := false
      currentAudio := none
      currentInstrumentalAudio := none
      speechPending := none },
   Effect.setPausedUI :: audioFx ++ instrFx ++ speechFx)

/-- Mirror of the instrumental setup block of startSlideshow (src/index.tsx
lines 794-814): a symbolic beat id acquires the shared pre-rendered loop
element when the document holds it, otherwise an instrumentalSrc constructs a
fresh looping audio handle; with neither, no background track is created.
`beatElems` tells whether document.querySelector finds the beat element. -/
def instrumentalSetup (tk : TikTok) (beatElems : String → Bool) (sid : Nat)
    (s : PlayState) : PlayState × List Effect :=
  match tk.instrumentalId with
  | some bid =>
      if beatElems bid then
        ({ s with currentInstrumentalAudio := some sid },
         [Effect.acquireInstrumental sid])
      else (s, [])
  | none =>
      match tk.instrumentalSrc with
      | some _ =>
          ({ s with currentInstrumentalAudio := some sid },
           [Effect.acquireInstrumental sid])
      | none => (s, [])

/-- Abstraction of the narration branches of startSlideshow (src/index.tsx
lines 816-904) at the resource level.  In browser-TTS mode the initial
synchronous speakAndAdvance run either queues the first utterance (some slide
has non-whitespace lyrics) or skips every slide and ends by calling
stopSlideshow.  Otherwise a songSrc constructs the narration audio handle. -/
def narrationSetup (tk : TikTok) (sid : Nat) (s : PlayState) :
    PlayState × List Effect :=
  if tk.useBrowserTTS then
    if tk.slides.all (fun sl => isBlank sl.lyrics) then
      stopSlideshow s
    else
      ({ s with speechPending := some sid }, [Effect.queueUtterance sid])
  else
    match tk.songSrc with
    | some _ => ({ s with currentAudio := some sid }, [Effect.acquireAudio sid])
    | none => (s, [])

/-- Mirror of startSlideshow (src/index.tsx lines 779-905) at the resource
level: return early when no container is active, when the saved-item lookup
fails, or when the slide container is empty; otherwise run stopSlideshow
first, mark the engine playing, then set up the instrumental track and the
narration resources for a fresh session identifier.  `items` is the
savedTikToks lookup keyed by the container identifier. -/
def startSlideshow (items : Nat → Option TikTok) (beatElems : String → Bool)
    (s : PlayState) : PlayState × List Effect :=
  match s.activeTikTokContainer with
  | none => (s, [])
  | some cid =>
      match items cid with
      | none => (s, [])
      | some tk =>
          if tk.slides.isEmpty then (s, [])
          else
            let r1 := stopSlideshow s
            let sid := r1.1.nextSid
            let s2 := { r1.1 with isPlaying := true, nextSid := sid + 1 }
            let r3 := instrumentalSetup tk beatElems sid s2
            let r4 := narrationSetup tk sid r3.1
            (r4.1, r1.2 ++ Effect.clearPausedUI :: (r3.2 ++ r4.2))

/-- Mirror of one intersection entry handled by the tiktokObserver callback
(src/index.tsx lines 724-733) together with the rebinding performed by
setupSlideObserverForActiveTikTok (lines 739-767): an intersecting container
different from the active one stops the slideshow, becomes active and gets
the slide-level observer rebound to it; otherwise nothing happens. -/
def observerEntryStep (s : PlayState) (cid : Nat) (inter : Bool) :
    PlayState × List Effect :=
  if inter then
    if s.activeTikTokContainer ≠ some cid then
      let r := stopSlideshow s
      ({ r.1 with activeTikTokContainer := some cid,
                  slideObserverTarget := some cid },
       r.2 ++ [Effect.rebindSlideObserver cid])
    else (s, [])
  else (s, [])

/-- Events the resource machine reacts to: a user start, a user stop, and a
visibility entry delivered to the item-level intersection observer. -/
inductive Ev where
  | start
  | stop
  | visibility (cid : Nat) (inter : Bool)
  deriving Repr, DecidableEq

/-- One step of the engine on an event. -/
def step (items : Nat → Option TikTok) (beatElems : String → Bool)
    (s : PlayState) : Ev → PlayState × List Effect
  | Ev.start => startSlideshow items beatElems s
  | Ev.stop => stopSlideshow s
  | Ev.visibility cid inter => observerEntryStep s cid inter

/-- Initial state of the globals (src/index.tsx lines 95-102). -/
def initState : PlayState :=
  { isPlaying := false
    currentAudio := none
    currentInstrumentalAudio := none
    speechPending := none
    activeTikTokContainer := none
    slideObserverTarget := none
    nextSid := 0 }

/-- State reached after a sequence of events from the initial state. -/
def run (items : Nat → Option TikTok) (beatElems : String → Bool)
    (evs : List Ev) : PlayState :=
  evs.foldl (fun s e => (step items beatElems s e).1) initState

/-- Session identifiers currently holding a live audio or speech resource. -/
def liveSids (s : PlayState) : List Nat :=
  s.currentAudio.toList ++ s.currentInstrumentalAudio.toList ++
    s.speechPending.toList

/-- All live resources belong to one session. -/
def OneSession (s : PlayState) : Prop :=
  ∀ a ∈ liveSids s, ∀ b ∈ liveSids s, a = b

/-- State with no live session: the engine is not playing, both audio handles
are null and no speech is pending. -/
def Idle (s : PlayState) : Prop :=
  s.isPlaying = false ∧ s.currentAudio = none ∧
    s.currentInstrumentalAudio = none ∧ s.speechPending = none

/-- Effects that create a playback resource or queue work; their absence from
an error-handler trace shows that no automatic retry happens. -/
def acquiresResource : Effect → Bool
  | Effect.acquireInstrumental _ => true
  | Effect.acquireAudio _ => true
  | Effect.queueUtterance _ => true
  | _ => false

/-- Mirror of the two instrumental play rejection handlers (src/index.tsx
lines 803-805 and 811-813): the failure is surfaced as an error popup and
nothing else happens, the session keeps running. -/
def instrumentalPlayCatch (msg : String) (s : PlayState) :
    PlayState × List Effect :=
  (s, [Effect.showError ("Instrumental playback failed:\n" ++ msg)])

/-- Mirror of the utterance onerror handler (src/index.tsx lines 855-859):
surface the speech error code, then stop the slideshow. -/
def speechOnError (errCode : String) (s : PlayState) : PlayState × List Effect :=
  ((stopSlideshow s).1,
   Effect.showError ("Speech synthesis failed: " ++ errCode) ::
     (stopSlideshow s).2)

/-- Mirror of the vocal play rejection handler (src/index.tsx lines 866-869):
surface the message, then stop the slideshow. -/
def vocalPlayCatch (msg : String) (s : PlayState) : PlayState × List Effect :=
  ((stopSlideshow s).1,
   Effect.showError ("Vocal playback failed:\n" ++ msg) :: (stopSlideshow s).2)

/-- Mirror of the MediaError value read from the error property of the audio
element in the onerror handler. -/
structure MediaError where
  message : String
  code : Nat
  deriving Repr, DecidableEq

/-- Mirror of the narration audio onerror handler (src/index.tsx lines
873-880): build a descriptive message that carries the media error code when
the handle exposes one, surface it, then stop the slideshow. -/
def vocalOnError (err : Option MediaError) (s : PlayState) :
    PlayState × List Effect :=
  let msg := match err with
    | some e2 => e2.message ++ " (code: " ++ toString e2.code ++ ")"
    | none => "An unknown error occurred."
  ((stopSlideshow s).1,
   Effect.showError ("Vocal playback failed:\n" ++ msg) :: (stopSlideshow s).2)

/-!
Model B: browser-TTS narration (speakAndAdvance).
-/

/-- Events observable from the browser-TTS playback path: a programmatic
scroll of slide i into view, a call to speechSynthesis.speak with the text
and the resolved voice, the firing of an utterance completion callback, and a
call to stopSlideshow. -/
inductive TTSEvent where
  | scrollCmd (i : Nat)
  | speakCall (text : String) (voice : Option String)
  | completion
  | stopCall
  deriving Repr, DecidableEq

/-- Voice record of speechSynthesis.getVoices, restricted to the name field
the code reads. -/
structure VoiceInfo where
  name : String
  deriving Repr, DecidableEq

/-- Mirror of the voice selection of src/index.tsx lines 841-849: the
utterance keeps the engine default voice (none) unless a voice with the
requested name is found among the available voices. -/
def resolveVoice (voices : List VoiceInfo) (voiceName : Option String) :
    Option String :=
  match voiceName with
  | none => none
  | some nm => if voices.any (fun v => v.name == nm) then some nm else none

/-- Closure state of the browser-TTS playback: the currentSlideIndex cursor,
whether an utterance is queued and awaiting its completion callback, and the
global isPlaying flag as the closure observes it. -/
structure TTSState where
  currentSlideIndex : Nat
  speaking : Bool
  playing : Bool
  deriving Repr, DecidableEq

/-- Mirror of one synchronous run of speakAndAdvance (src/index.tsx lines
819-861) from cursor i: past the end or not playing, call stopSlideshow and
return; otherwise scroll slide i into view, then blank lyrics advance the
cursor immediately and re-enter, and non-blank lyrics queue one utterance
with the resolved voice and leave the closure waiting for its completion
callback. -/
def speakAndAdvanceRun (tk : TikTok) (voices : List VoiceInfo)
    (playing : Bool) (i : Nat) : TTSState × List TTSEvent :=
  if h : tk.slides.length ≤ i ∨ playing = false then
    ({ currentSlideIndex := i, speaking := false, playing := false },
     [TTSEvent.stopCall])
  else
    have hi : i < tk.slides.length := by
      rcases Nat.lt_or_ge i tk.slides.length with h1 | h1
      · exact h1
      · exact absurd (Or.inl h1) h
    if isBlank (tk.slides.get ⟨i, hi⟩).lyrics then
      let r := speakAndAdvanceRun tk voices playing (i + 1)
      (r.1, TTSEvent.scrollCmd i :: r.2)
    else
      ({ currentSlideIndex := i, speaking := true, playing := playing },
       [TTSEvent.scrollCmd i,
        TTSEvent.speakCall (tk.slides.get ⟨i, hi⟩).lyrics
          (resolveVoice voices tk.voiceName)])
termination_by tk.slides.length - i
decreasing_by omega

/-- Mirror of the utterance onend callback (src/index.tsx lines 851-854):
advance the cursor and re-enter speakAndAdvance; the completion event records
the callback firing. -/
def onendStep (tk : TikTok) (voices : List VoiceInfo) (st : TTSState) :
    TTSState × List TTSEvent :=
  ((speakAndAdvanceRun tk voices st.playing (st.currentSlideIndex + 1)).1,
   TTSEvent.completion ::
     (speakAndAdvanceRun tk voices st.playing (st.currentSlideIndex + 1)).2)

/-- Deliver utterance completion callbacks while an utterance is pending,
bounded by fuel. -/
def ttsDeliver (tk : TikTok) (voices : List VoiceInfo) :
    Nat → TTSState → List TTSEvent
  | 0, _ => []
  | fuel + 1, st =>
      if st.speaking then
        (onendStep tk voices st).2 ++
          ttsDeliver tk voices fuel (onendStep tk voices st).1
      else []

/-- Full browser-TTS session trace: the initial synchronous speakAndAdvance
run from cursor 0 followed by the completion callbacks it awaits, with every
utterance completing normally. -/
def ttsSession (tk : TikTok) (voices : List VoiceInfo) (fuel : Nat) :
    List TTSEvent :=
  (speakAndAdvanceRun tk voices true 0).2 ++
    ttsDeliver tk voices fuel (speakAndAdvanceRun tk voices true 0).1

/-- Texts passed to speech synthesis, in order. -/
def speakTexts (t : List TTSEvent) : List String :=
  t.filterMap (fun e => match e with
    | TTSEvent.speakCall txt _ => some txt
    | _ => none)

/-- Indices of the scroll-into-view commands, in order. -/
def scrollIndices (t : List TTSEvent) : List Nat :=
  t.filterMap (fun e => match e with
    | TTSEvent.scrollCmd i => some i
    | _ => none)

/-- Helper for `speakSeparated`: the flag says whether an utterance is
pending without a completion having fired yet. -/
def speakSeparatedAux : Bool → List TTSEvent → Bool
  | _, [] => true
  | pending, TTSEvent.speakCall _ _ :: rest =>
      !pending && speakSeparatedAux true rest
  | _, TTSEvent.completion :: rest => speakSeparatedAux false rest
  | pending, _ :: rest => speakSeparatedAux pending rest

/-- A trace never queues a new utterance before the completion callback of
the previous utterance has fired. -/
def speakSeparated (t : List TTSEvent) : Bool :=
  speakSeparatedAux false t

/-- Concrete item whose first slide has blank lyrics, used to exhibit the
scroll command the engine issues for a blank slide. -/
def tikTokEx : TikTok :=
  { slides := [{ lyrics := "", imageSrc := "img0" },
               { lyrics := "hi", imageSrc := "img1" }]
    songSrc := none
    instrumentalSrc := none
    instrumentalId := none
    useBrowserTTS := true
    voiceName := none }

/-- Concrete three-slide item with a blank middle slide, used to instantiate
the sequential-speech facts. -/
def tikTokABC : TikTok :=
  { slides := [{ lyrics := "A", imageSrc := "i0" },
               { lyrics := "", imageSrc := "i1" },
               { lyrics := "C", imageSrc := "i2" }]
    songSrc := none
    instrumentalSrc := none
    instrumentalId := none
    useBrowserTTS := true
    voiceName := none }

/-!
Model C: audio-driven narration (the timeupdate handler).
-/

/-- State of the narration audio element as the timeupdate handler reads it:
playback position, total duration and the paused flag.  Time is modelled by
rationals. -/
structure AudioState where
  currentTime : ℚ
  duration : ℚ
  paused : Bool
  deriving DecidableEq

/-- Mirror of the timeupdate listener of src/index.tsx lines 883-903: return
untouched when the handle is null, paused or still without duration;
otherwise compute the target index floor(currentTime / (duration /
slideCount)) and scroll it into view exactly when it differs from the
last-displayed index and is below the slide count, recording it as
last-displayed.  The returned list holds the scroll targets issued. -/
def timeupdateHandler (slideCount : Nat) (audio : Option AudioState)
    (lastSlideIndex : Int) : Int × List Int :=
  match audio with
  | none => (lastSlideIndex, [])
  | some a =>
      if a.paused then (lastSlideIndex, [])
      else if a.duration = 0 then (lastSlideIndex, [])
      else
        let target : Int := Int.floor (a.currentTime / (a.duration / (slideCount : ℚ)))
        if target ≠ lastSlideIndex ∧ target < (slideCount : Int) then
          (target, [target])
        else (lastSlideIndex, [])

/-- Last-displayed slide index after each successive time sample, starting
from the given last-displayed index. -/
def displayedSeq (slideCount : Nat) (duration : ℚ) :
    Int → List ℚ → List Int
  | _, [] => []
  | last, t :: ts =>
      (timeupdateHandler slideCount
          (some { currentTime := t, duration := duration, paused := false })
          last).1 ::
        displayedSeq slideCount duration
          (timeupdateHandler slideCount
            (some { currentTime := t, duration := duration, paused := false })
            last).1 ts

/-!
Slide visibility tracker.
-/

/-- Scroll-containment mode: free keeps vertical feed scrolling enabled
(overflowY auto), locked disables it (overflowY hidden). -/
inductive Containment where
  | free
  | locked
  deriving Repr, DecidableEq

/-- One entry of a slide visibility batch: the position of the slide among
the children of the horizontal slider, and whether it now intersects.  The
slider children are exactly the slides in order (addTikTokToFeed, src/index.tsx
lines 655-665), so the slide with no previous sibling is index 0 and the one
with no next sibling is index slideCount - 1. -/
structure SlideEntry where
  index : Nat
  isIntersecting : Bool
  deriving Repr, DecidableEq

/-- Mirror of the slideObserver callback of src/index.tsx lines 747-760:
isAtBounds starts false and becomes true when an intersecting entry is a
first or last slide; the batch ends setting overflowY from it. -/
def slideObserverBatch (slideCount : Nat) (entries : List SlideEntry) :
    Containment :=
  let isAtBounds := entries.foldl
    (fun acc e =>
      acc || (e.isIntersecting && (e.index == 0 || e.index == slideCount - 1)))
    false
  if isAtBounds then Containment.free else Containment.locked

theorem stop_clears (s : PlayState) : liveSids (stopSlideshow s).1 = [] := by
  simp [stopSlideshow, liveSids]

theorem stop_state_fields (s : PlayState) :
    (stopSlideshow s).1.isPlaying = false ∧
    (stopSlideshow s).1.currentAudio = none ∧
    (stopSlideshow s).1.currentInstrumentalAudio = none ∧
    (stopSlideshow s).1.speechPending = none := by
  simp [stopSlideshow]

/-- Every live resource of the given state belongs to session `sid`. -/
def LiveOnly (sid : Nat) (s : PlayState) : Prop :=
  (∀ x, s.currentAudio = some x → x = sid) ∧
  (∀ x, s.currentInstrumentalAudio = some x → x = sid) ∧
  (∀ x, s.speechPending = some x → x = sid)

theorem liveOnly_oneSession (sid : Nat) (s : PlayState) (h : LiveOnly sid s) :
    OneSession s := by
  have key : ∀ x ∈ liveSids s, x = sid := by
    intro x hx
    simp only [liveSids, List.mem_append, Option.mem_toList,
      Option.mem_def] at hx
    rcases hx with (hx | hx) | hx
    · exact h.1 x hx
    · exact h.2.1 x hx
    · exact h.2.2 x hx
  intro a ha b hb
  rw [key a ha, key b hb]

theorem stop_liveOnly (sid : Nat) (s : PlayState) :
    LiveOnly sid (stopSlideshow s).1 := by
  refine ⟨?_, ?_, ?_⟩ <;>
    · intro x hx
      simp [stopSlideshow] at hx

theorem instrumentalSetup_liveOnly (tk : TikTok) (beatElems : String → Bool)
    (sid : Nat) (s : PlayState) (h : LiveOnly sid s) :
    LiveOnly sid (instrumentalSetup tk beatElems sid s).1 := by
  rcases hid : tk.instrumentalId with _ | bid
  · rcases hsrc : tk.instrumentalSrc with _ | src
    · simpa [instrumentalSetup, hid, hsrc] using h
    · simp only [instrumentalSetup, hid, hsrc]
      refine ⟨h.1, ?_, h.2.2⟩
      intro x hx
      have hx2 : (some sid : Option Nat) = some x := hx
      exact (Option.some.inj hx2).symm
  · by_cases hb : beatElems bid
    · simp only [instrumentalSetup, hid, hb, if_true]
      refine ⟨h.1, ?_, h.2.2⟩
      intro x hx
      have hx2 : (some sid : Option Nat) = some x := hx
      exact (Option.some.inj hx2).symm
    · simpa [instrumentalSetup, hid, hb] using h

theorem narrationSetup_liveOnly (tk : TikTok) (sid : Nat) (s : PlayState)
    (h : LiveOnly sid s) : LiveOnly sid (narrationSetup tk sid s).1 := by
  by_cases htts : tk.useBrowserTTS
  · by_cases hall : tk.slides.all (fun sl => isBlank sl.lyrics)
    · simp only [narrationSetup, htts, hall, if_true]
      exact stop_liveOnly sid s
    · simp only [narrationSetup, htts, hall, if_true, if_false]
      refine ⟨h.1, h.2.1, ?_⟩
      intro x hx
      have hx2 : (some sid : Option Nat) = some x := hx
      exact (Option.some.inj hx2).symm
  · rcases hsong : tk.songSrc with _ | src
    · simpa [narrationSetup, htts, hsong] using h
    · simp only [narrationSetup, htts, hsong, if_false]
      refine ⟨?_, h.2.1, h.2.2⟩
      intro x hx
      have hx2 : (some sid : Option Nat) = some x := hx
      exact (Option.some.inj hx2).symm

theorem startSlideshow_oneSession (items : Nat → Option TikTok)
    (beatElems : String → Bool) (s : PlayState) (h : OneSession s) :
    OneSession (startSlideshow items beatElems s).1 := by
  rcases hA : s.activeTikTokContainer with _ | cid
  · simpa [startSlideshow, hA] using h
  · rcases hB : items cid with _ | tk
    · simpa [startSlideshow, hA, hB] using h
    · by_cases hemp : tk.slides.isEmpty
      · simpa [startSlideshow, hA, hB, hemp] using h
      · simp only [startSlideshow, hA, hB, hemp, Bool.false_eq_true, if_false]
        set sid := (stopSlideshow s).1.nextSid with hsid
        have h2 : LiveOnly sid
            { (stopSlideshow s).1 with isPlaying := true, nextSid := sid + 1 } := by
          refine ⟨?_, ?_, ?_⟩ <;>
            · intro x hx
              simp only [stopSlideshow] at hx
              exact Option.noConfusion hx
        exact liveOnly_oneSession sid _
          (narrationSetup_liveOnly tk sid _
            (instrumentalSetup_liveOnly tk beatElems sid _ h2))

theorem observerEntryStep_oneSession (s : PlayState) (cid : Nat) (inter : Bool)
    (h : OneSession s) : OneSession (observerEntryStep s cid inter).1 := by
  by_cases hi : inter
  · by_cases hne : s.activeTikTokContainer ≠ some cid
    · simp only [observerEntryStep, hi, if_true, if_pos hne]
      refine liveOnly_oneSession 0 _ ⟨?_, ?_, ?_⟩ <;>
        · intro x hx
          simp [stopSlideshow] at hx
    · simpa [observerEntryStep, hi, hne] using h
  · simpa [observerEntryStep, hi] using h

theorem stop_oneSession (s : PlayState) : OneSession (stopSlideshow s).1 :=
  liveOnly_oneSession 0 _ (stop_liveOnly 0 s)

theorem step_oneSession (items : Nat → Option TikTok)
    (beatElems : String → Bool) (s : PlayState) (e : Ev) (h : OneSession s) :
    OneSession (step items beatElems s e).1 := by
  cases e with
  | start => exact startSlideshow_oneSession items beatElems s h
  | stop => exact stop_oneSession s
  | visibility cid inter => exact observerEntryStep_oneSession s cid inter h

theorem initState_oneSession : OneSession initState := by
  intro a ha
  simp [initState, liveSids] at ha

theorem run_oneSession (items : Nat → Option TikTok)
    (beatElems : String → Bool) (evs : List Ev) :
    OneSession (run items beatElems evs) := by
  unfold run
  have key : ∀ (l : List Ev) (s : PlayState), OneSession s →
      OneSession (l.foldl (fun s e => (step items beatElems s e).1) s) := by
    intro l
    induction l with
    | nil => intro s hs; exact hs
    | cons e t ih =>
        intro s hs
        exact ih _ (step_oneSession items beatElems s e hs)
  exact key evs initState initState_oneSession

theorem startSlideshow_stop_first (items : Nat → Option TikTok)
    (beatElems : String → Bool) (s : PlayState) :
    startSlideshow items beatElems s = (s, []) ∨
      ∃ rest, (startSlideshow items beatElems s).2 =
        (stopSlideshow s).2 ++ rest := by
  rcases hA : s.activeTikTokContainer with _ | cid
  · exact Or.inl (by simp [startSlideshow, hA])
  · rcases hB : items cid with _ | tk
    · exact Or.inl (by simp [startSlideshow, hA, hB])
    · by_cases hemp : tk.slides.isEmpty
      · exact Or.inl (by simp [startSlideshow, hA, hB, hemp])
      · have hmain : (startSlideshow items beatElems s).2 =
            (stopSlideshow s).2 ++
              (Effect.clearPausedUI ::
                ((instrumentalSetup tk beatElems (stopSlideshow s).1.nextSid { (stopSlideshow s).1 with isPlaying := true, nextSid := (stopSlideshow s).1.nextSid + 1 }).2 ++
                  (narrationSetup tk (stopSlideshow s).1.nextSid (instrumentalSetup tk beatElems (stopSlideshow s).1.nextSid { (stopSlideshow s).1 with isPlaying := true, nextSid := (stopSlideshow s).1.nextSid + 1 }).1).2)) := by
          simp [startSlideshow, hA, hB, hemp]
        exact Or.inr ⟨_, hmain⟩

/-- C1: at most one playback session is live system-wide.  Along every
sequence of start, stop and activation-change events from the initial state,
all live audio and speech resources belong to a single session, and
startSlideshow either returns without touching anything (failed precondition)
or emits the complete stopSlideshow effect trace before any effect of the new
session. -/
theorem claim_C1_at_most_one_session (items : Nat → Option TikTok)
    (beatElems : String → Bool) (evs : List Ev) :
    OneSession (run items beatElems evs) ∧
    (∀ s : PlayState, startSlideshow items beatElems s = (s, []) ∨
      ∃ rest, (startSlideshow items beatElems s).2 =
        (stopSlideshow s).2 ++ rest) :=
  ⟨run_oneSession items beatElems evs,
   fun s => startSlideshow_stop_first items beatElems s⟩

theorem stopSlideshow_idle (s : PlayState) (h : Idle s) :
    stopSlideshow s = (s, [Effect.setPausedUI]) := by
  obtain ⟨h1, h2, h3, h4⟩ := h
  cases s
  simp_all [stopSlideshow]

/-- C8: stop is idempotent and always safe.  Two consecutive stops produce
the same playback state as one, and on an idle state (no live handles, no
pending speech, not playing) stop leaves the state unchanged and performs no
release or cancellation, only the paused-UI class toggle. -/
theorem claim_C8_stop_idempotent :
    (∀ s : PlayState,
      (stopSlideshow (stopSlideshow s).1).1 = (stopSlideshow s).1) ∧
    (∀ s : PlayState, Idle s →
      (stopSlideshow s).1 = s ∧ (stopSlideshow s).2 = [Effect.setPausedUI]) := by
  constructor
  · intro s
    simp [stopSlideshow]
  · intro s h
    rw [stopSlideshow_idle s h]
    exact ⟨rfl, rfl⟩

theorem claim_C8_stop_idempotent_witness :
    (stopSlideshow initState).1 = initState ∧
      (stopSlideshow initState).2 = [Effect.setPausedUI] :=
  claim_C8_stop_idempotent.2 initState ⟨rfl, rfl, rfl, rfl⟩

/-- C2: the viewport activation tracker transitions only when the
intersecting container differs from the active one; on such a transition the
session is fully stopped (no live resources, not playing) with the stop
effects preceding the slide-observer rebind, the container becomes active and
the slide observer is rebound to it; an intersecting entry equal to the
active container, or a non-intersecting entry, changes nothing. -/
theorem claim_C2_activation_transition (s : PlayState) (cid : Nat) :
    (s.activeTikTokContainer ≠ some cid →
      (observerEntryStep s cid true).1.activeTikTokContainer = some cid ∧
      (observerEntryStep s cid true).1.slideObserverTarget = some cid ∧
      (observerEntryStep s cid true).1.isPlaying = false ∧
      liveSids (observerEntryStep s cid true).1 = [] ∧
      (observerEntryStep s cid true).2 =
        (stopSlideshow s).2 ++ [Effect.rebindSlideObserver cid]) ∧
    (s.activeTikTokContainer = some cid →
      observerEntryStep s cid true = (s, [])) ∧
    (observerEntryStep s cid false = (s, [])) := by
  refine ⟨?_, ?_, ?_⟩
  · intro hne
    simp [observerEntryStep, if_pos hne, stopSlideshow, liveSids]
  · intro heq
    simp [observerEntryStep, heq]
  · simp [observerEntryStep]

theorem claim_C2_activation_transition_witness :
    (observerEntryStep initState 0 true).1.activeTikTokContainer = some 0 ∧
    (observerEntryStep initState 0 true).1.slideObserverTarget = some 0 ∧
    (observerEntryStep initState 0 true).1.isPlaying = false ∧
    liveSids (observerEntryStep initState 0 true).1 = [] ∧
    (observerEntryStep initState 0 true).2 =
      (stopSlideshow initState).2 ++ [Effect.rebindSlideObserver 0] :=
  (claim_C2_activation_transition initState 0).1 (by decide)

theorem stop_no_acquire (s : PlayState) :
    ((stopSlideshow s).2.all (fun e => !acquiresResource e)) = true := by
  rcases hca : s.currentAudio with _ | a <;>
    rcases hci : s.currentInstrumentalAudio with _ | b <;>
      rcases hsp : s.speechPending with _ | c <;>
        simp [stopSlideshow, hca, hci, hsp, acquiresResource]

/-- C7: failure to start the instrumental or beat background track is
non-fatal (error surfaced, state untouched, session continues), while a
speech-synthesis error or a narration-audio playback or decode error is
fatal: the session is fully stopped, a descriptive error is surfaced (with
the media error code when available) and no effect acquires a new resource,
so no automatic retry occurs. -/
theorem claim_C7_error_taxonomy :
    (∀ (msg : String) (s : PlayState),
      (instrumentalPlayCatch msg s).1 = s ∧
      (instrumentalPlayCatch msg s).2 =
        [Effect.showError ("Instrumental playback failed:\n" ++ msg)]) ∧
    (∀ (ec : String) (s : PlayState),
      (speechOnError ec s).1.isPlaying = false ∧
      liveSids (speechOnError ec s).1 = [] ∧
      Effect.showError ("Speech synthesis failed: " ++ ec) ∈
        (speechOnError ec s).2 ∧
      ((speechOnError ec s).2.all (fun e => !acquiresResource e)) = true) ∧
    (∀ (msg : String) (s : PlayState),
      (vocalPlayCatch msg s).1.isPlaying = false ∧
      liveSids (vocalPlayCatch msg s).1 = [] ∧
      Effect.showError ("Vocal playback failed:\n" ++ msg) ∈
        (vocalPlayCatch msg s).2 ∧
      ((vocalPlayCatch msg s).2.all (fun e => !acquiresResource e)) = true) ∧
    (∀ (err : MediaError) (s : PlayState),
      (vocalOnError (some err) s).1.isPlaying = false ∧
      liveSids (vocalOnError (some err) s).1 = [] ∧
      (∃ p q : String,
        Effect.showError (p ++ toString err.code ++ q) ∈
          (vocalOnError (some err) s).2) ∧
      ((vocalOnError (some err) s).2.all (fun e => !acquiresResource e)) = true) := by
  refine ⟨?_, ?_, ?_, ?_⟩
  · intro msg s
    exact ⟨rfl, rfl⟩
  · intro ec s
    refine ⟨?_, stop_clears s, List.mem_cons_self _ _, ?_⟩
    · simp [speechOnError, stopSlideshow]
    · have h := stop_no_acquire s
      show ((Effect.showError ("Speech synthesis failed: " ++ ec) ::
        (stopSlideshow s).2).all fun e => !acquiresResource e) = true
      rw [List.all_cons, h]
      rfl
  · intro msg s
    refine ⟨?_, stop_clears s, List.mem_cons_self _ _, ?_⟩
    · simp [vocalPlayCatch, stopSlideshow]
    · have h := stop_no_acquire s
      show ((Effect.showError ("Vocal playback failed:\n" ++ msg) ::
        (stopSlideshow s).2).all fun e => !acquiresResource e) = true
      rw [List.all_cons, h]
      rfl
  · intro err s
    refine ⟨?_, stop_clears s, ?_, ?_⟩
    · simp [vocalOnError, stopSlideshow]
    · refine ⟨"Vocal playback failed:\n" ++ (err.message ++ " (code: "), ")", ?_⟩
      have hstr :
          ("Vocal playback failed:\n" ++ (err.message ++ " (code: ")) ++
              toString err.code ++ ")" =
            "Vocal playback failed:\n" ++
              (err.message ++ " (code: " ++ toString err.code ++ ")") := by
        simp [String.append_assoc]
      rw [hstr]
      exact List.mem_cons_self _ _
    · have h := stop_no_acquire s
      show ((Effect.showError ("Vocal playback failed:\n" ++
          (err.message ++ " (code: " ++ toString err.code ++ ")")) ::
        (stopSlideshow s).2).all fun e => !acquiresResource e) = true
      rw [List.all_cons, h]
      rfl

theorem playing_true_of_guard {tk : TikTok} {playing : Bool} {i : Nat}
    (h : ¬(tk.slides.length ≤ i ∨ playing = false)) : playing = true := by
  cases playing
  · exact absurd (Or.inr rfl) h
  · rfl

theorem run_eq_stop (tk : TikTok) (voices : List VoiceInfo) (playing : Bool)
    (i : Nat) (h : tk.slides.length ≤ i ∨ playing = false) :
    speakAndAdvanceRun tk voices playing i =
      ({ currentSlideIndex := i, speaking := false, playing := false },
       [TTSEvent.stopCall]) := by
  rw [speakAndAdvanceRun]
  simp [h]

theorem run_eq_blank (tk : TikTok) (voices : List VoiceInfo) (i : Nat)
    (hi : i < tk.slides.length)
    (hbl : isBlank (tk.slides.get ⟨i, hi⟩).lyrics = true) :
    speakAndAdvanceRun tk voices true i =
      ((speakAndAdvanceRun tk voices true (i + 1)).1,
       TTSEvent.scrollCmd i :: (speakAndAdvanceRun tk voices true (i + 1)).2) := by
  rw [speakAndAdvanceRun]
  have hni : ¬ tk.slides.length ≤ i := by omega
  simp only [List.get_eq_getElem] at hbl
  simp [hni, hbl]

theorem run_eq_speak (tk : TikTok) (voices : List VoiceInfo) (i : Nat)
    (hi : i < tk.slides.length)
    (hnbl : isBlank (tk.slides.get ⟨i, hi⟩).lyrics = false) :
    speakAndAdvanceRun tk voices true i =
      ({ currentSlideIndex := i, speaking := true, playing := true },
       [TTSEvent.scrollCmd i,
        TTSEvent.speakCall (tk.slides.get ⟨i, hi⟩).lyrics
          (resolveVoice voices tk.voiceName)]) := by
  rw [speakAndAdvanceRun]
  have hni : ¬ tk.slides.length ≤ i := by omega
  simp only [List.get_eq_getElem] at hnbl
  simp [hni, hnbl]

theorem run_cursor_ge (tk : TikTok) (voices : List VoiceInfo)
    (playing : Bool) (i : Nat) :
    i ≤ (speakAndAdvanceRun tk voices playing i).1.currentSlideIndex := by
  induction i using speakAndAdvanceRun.induct tk voices playing with
  | case1 x h =>
      rw [run_eq_stop tk voices playing x h]
  | case2 x h hi hbl ih =>
      have hp := playing_true_of_guard h
      subst hp
      rw [run_eq_blank tk voices x hi hbl]
      exact Nat.le_trans (Nat.le_succ x) ih
  | case3 x h hi hnbl =>
      have hp := playing_true_of_guard h
      subst hp
      have hnbl2 : isBlank (tk.slides.get ⟨x, hi⟩).lyrics = false := by
        simp only [Bool.not_eq_true] at hnbl
        exact hnbl
      rw [run_eq_speak tk voices x hi hnbl2]

theorem run_shape (tk : TikTok) (voices : List VoiceInfo) (playing : Bool)
    (i : Nat) :
    ((speakAndAdvanceRun tk voices playing i).1.speaking = false ∧
     (speakAndAdvanceRun tk voices playing i).1.playing = false ∧
     ∃ pre, (speakAndAdvanceRun tk voices playing i).2 =
       pre ++ [TTSEvent.stopCall]) ∨
    ((speakAndAdvanceRun tk voices playing i).1.speaking = true ∧
     (speakAndAdvanceRun tk voices playing i).1.playing = true ∧
     i ≤ (speakAndAdvanceRun tk voices playing i).1.currentSlideIndex ∧
     (speakAndAdvanceRun tk voices playing i).1.currentSlideIndex <
       tk.slides.length) := by
  induction i using speakAndAdvanceRun.induct tk voices playing with
  | case1 x h =>
      left
      rw [run_eq_stop tk voices playing x h]
      exact ⟨rfl, rfl, [], rfl⟩
  | case2 x h hi hbl ih =>
      have hp := playing_true_of_guard h
      subst hp
      rw [run_eq_blank tk voices x hi hbl]
      rcases ih with ⟨h1, h2, pre, h3⟩ | ⟨h1, h2, h3, h4⟩
      · left
        exact ⟨h1, h2, TTSEvent.scrollCmd x :: pre, by simp [h3]⟩
      · right
        exact ⟨h1, h2, Nat.le_trans (Nat.le_succ x) h3, h4⟩
  | case3 x h hi hnbl =>
      have hp := playing_true_of_guard h
      subst hp
      have hnbl2 : isBlank (tk.slides.get ⟨x, hi⟩).lyrics = false := by
        simp only [Bool.not_eq_true] at hnbl
        exact hnbl
      rw [run_eq_speak tk voices x hi hnbl2]
      exact Or.inr ⟨rfl, rfl, Nat.le_refl x, hi⟩

theorem deliver_not_speaking (tk : TikTok) (voices : List VoiceInfo)
    (n : Nat) (st : TTSState) (h : st.speaking = false) :
    ttsDeliver tk voices n st = [] := by
  cases n with
  | zero => rfl
  | succ m => simp [ttsDeliver, h]

theorem deliver_stops (tk : TikTok) (voices : List VoiceInfo) :
    ∀ (n : Nat) (st : TTSState), st.speaking = true → st.playing = true →
      st.currentSlideIndex < tk.slides.length →
      tk.slides.length - st.currentSlideIndex ≤ n →
      ∃ pre, ttsDeliver tk voices n st = pre ++ [TTSEvent.stopCall] := by
  intro n
  induction n with
  | zero =>
      intro st h1 h2 h3 h4
      omega
  | succ m ih =>
      intro st h1 h2 h3 h4
      rcases run_shape tk voices st.playing (st.currentSlideIndex + 1) with
        ⟨g1, g2, pre, g3⟩ | ⟨g1, g2, g3, g4⟩
      · refine ⟨TTSEvent.completion :: pre, ?_⟩
        simp [ttsDeliver, h1, onendStep, g3,
          deliver_not_speaking tk voices m _ g1]
      · have hcur := run_cursor_ge tk voices st.playing
          (st.currentSlideIndex + 1)
        obtain ⟨pre2, hp2⟩ := ih _ g1 g2 g4 (by omega)
        refine ⟨TTSEvent.completion ::
          (speakAndAdvanceRun tk voices st.playing
            (st.currentSlideIndex + 1)).2 ++ pre2, ?_⟩
        simp [ttsDeliver, h1, onendStep, hp2]

/-- C3: for a synthesized-speech session over slides [A, blank, C], the trace
is scroll 0, speak A, its completion, scroll 1, scroll 2, speak C, its
completion, stop: synthesis is called exactly twice (A then C) with no call
for the blank slide, scroll-into-view is issued exactly three times in index
order 0, 1, 2, and no utterance is queued before the completion callback of
the previous one has fired. -/
theorem claim_C3_sequential_speech (tk : TikTok) (voices : List VoiceInfo)
    (A C ia ib ic : String)
    (hslides : tk.slides = [{ lyrics := A, imageSrc := ia },
      { lyrics := "", imageSrc := ib }, { lyrics := C, imageSrc := ic }])
    (hA : isBlank A = false) (hC : isBlank C = false) :
    ttsSession tk voices 2 =
      [TTSEvent.scrollCmd 0,
       TTSEvent.speakCall A (resolveVoice voices tk.voiceName),
       TTSEvent.completion, TTSEvent.scrollCmd 1, TTSEvent.scrollCmd 2,
       TTSEvent.speakCall C (resolveVoice voices tk.voiceName),
       TTSEvent.completion, TTSEvent.stopCall] ∧
    speakTexts (ttsSession tk voices 2) = [A, C] ∧
    scrollIndices (ttsSession tk voices 2) = [0, 1, 2] ∧
    speakSeparated (ttsSession tk voices 2) = true := by
  have hE : isBlank "" = true := by decide
  have key : ttsSession tk voices 2 =
      [TTSEvent.scrollCmd 0,
       TTSEvent.speakCall A (resolveVoice voices tk.voiceName),
       TTSEvent.completion, TTSEvent.scrollCmd 1, TTSEvent.scrollCmd 2,
       TTSEvent.speakCall C (resolveVoice voices tk.voiceName),
       TTSEvent.completion, TTSEvent.stopCall] := by
    simp [ttsSession, ttsDeliver, onendStep, speakAndAdvanceRun, hslides,
      hA, hC, hE]
  refine ⟨key, ?_, ?_, ?_⟩ <;> rw [key] <;> rfl

theorem claim_C3_sequential_speech_witness :
    ttsSession tikTokABC [] 2 =
      [TTSEvent.scrollCmd 0, TTSEvent.speakCall "A" none,
       TTSEvent.completion, TTSEvent.scrollCmd 1, TTSEvent.scrollCmd 2,
       TTSEvent.speakCall "C" none, TTSEvent.completion,
       TTSEvent.stopCall] ∧
    speakTexts (ttsSession tikTokABC [] 2) = ["A", "C"] ∧
    scrollIndices (ttsSession tikTokABC [] 2) = [0, 1, 2] ∧
    speakSeparated (ttsSession tikTokABC [] 2) = true :=
  claim_C3_sequential_speech tikTokABC [] "A" "C" "i0" "i1" "i2" rfl
    (by decide) (by decide)

/-- Refutation for C9: on an item whose first slide is blank, the engine
still issues the scroll-into-view command for that blank slide (the scroll at
line 826 of src/index.tsx happens before the blank check of line 833), so
scroll is not restricted to the non-empty case as the claim states. -/
theorem claim_C9_counterexample :
    ttsSession tikTokEx [] 1 =
      [TTSEvent.scrollCmd 0, TTSEvent.scrollCmd 1,
       TTSEvent.speakCall "hi" none, TTSEvent.completion,
       TTSEvent.stopCall] ∧
    tikTokEx.slides.map (fun sl => isBlank sl.lyrics) = [true, false] := by
  constructor
  · have h0 : isBlank "" = true := by decide
    have h1 : isBlank "hi" = false := by decide
    simp [ttsSession, ttsDeliver, onendStep, speakAndAdvanceRun, tikTokEx,
      h0, h1, resolveVoice]
  · decide

/-- C9 (amended): a blank slide is skipped immediately to the next index as a
zero-duration step with no synthesis call, but its scroll-into-view command
is still issued, before the blank check; for a non-blank slide the scroll
precedes the single synthesis call, whose voice is the requested one when it
resolves among the available voices and the engine default otherwise. -/
theorem claim_C9_blank_slide_handling :
    (∀ (tk : TikTok) (voices : List VoiceInfo) (i : Nat)
        (hi : i < tk.slides.length),
      isBlank (tk.slides.get ⟨i, hi⟩).lyrics = true →
        speakAndAdvanceRun tk voices true i =
          ((speakAndAdvanceRun tk voices true (i + 1)).1,
           TTSEvent.scrollCmd i ::
             (speakAndAdvanceRun tk voices true (i + 1)).2)) ∧
    (∀ (tk : TikTok) (voices : List VoiceInfo) (i : Nat)
        (hi : i < tk.slides.length),
      isBlank (tk.slides.get ⟨i, hi⟩).lyrics = false →
        speakAndAdvanceRun tk voices true i =
          ({ currentSlideIndex := i, speaking := true, playing := true },
           [TTSEvent.scrollCmd i,
            TTSEvent.speakCall (tk.slides.get ⟨i, hi⟩).lyrics
              (resolveVoice voices tk.voiceName)])) ∧
    (∀ (voices : List VoiceInfo) (nm : String),
      (voices.any (fun v => v.name == nm) = true →
        resolveVoice voices (some nm) = some nm) ∧
      (voices.any (fun v => v.name == nm) = false →
        resolveVoice voices (some nm) = none)) := by
  refine ⟨?_, ?_, ?_⟩
  · intro tk voices i hi hbl
    exact run_eq_blank tk voices i hi hbl
  · intro tk voices i hi hnbl
    exact run_eq_speak tk voices i hi hnbl
  · intro voices nm
    constructor
    · intro h
      simp [resolveVoice, h]
    · intro h
      simp [resolveVoice, h]

theorem claim_C9_blank_slide_handling_witness :
    speakAndAdvanceRun tikTokEx [] true 0 =
      ((speakAndAdvanceRun tikTokEx [] true 1).1,
       TTSEvent.scrollCmd 0 :: (speakAndAdvanceRun tikTokEx [] true 1).2) :=
  claim_C9_blank_slide_handling.1 tikTokEx [] 0 (by decide) (by decide)

theorem run_all_blank (tk : TikTok) (voices : List VoiceInfo)
    (hall : ∀ sl ∈ tk.slides, isBlank sl.lyrics = true) :
    ∀ i, i ≤ tk.slides.length →
      speakAndAdvanceRun tk voices true i =
        ({ currentSlideIndex := tk.slides.length, speaking := false,
           playing := false },
         (List.range' i (tk.slides.length - i)).map TTSEvent.scrollCmd ++
           [TTSEvent.stopCall]) := by
  intro i
  induction i using speakAndAdvanceRun.induct tk voices true with
  | case1 x h =>
      intro hle
      have hx : x = tk.slides.length := by
        rcases h with h | h
        · omega
        · exact absurd h (by simp)
      rw [run_eq_stop tk voices true x h]
      subst hx
      simp
  | case2 x h hi hbl ih =>
      intro hle
      rw [run_eq_blank tk voices x hi hbl, ih (by omega)]
      have hsub : tk.slides.length - x = (tk.slides.length - (x + 1)) + 1 := by
        omega
      rw [hsub, List.range']
      simp
  | case3 x h hi hnbl =>
      intro hle
      have hmem := hall _ (tk.slides.get_mem x hi)
      simp only [Bool.not_eq_true] at hnbl
      rw [hmem] at hnbl
      cases hnbl

/-- C10: the speak-and-advance recursion terminates.  With fuel equal to the
slide count, the session trace ends in the stopSlideshow call; the cursor
strictly increases across every utterance completion (and across blank skips,
which advance it inside the synchronous run); and an item whose slides are
all blank produces a session that starts and immediately ends: its whole
trace is the scrolls of the skipped slides followed by the stop call, with
zero synthesis calls, for every fuel. -/
theorem claim_C10_termination (tk : TikTok) (voices : List VoiceInfo) :
    (∃ pre, ttsSession tk voices tk.slides.length =
      pre ++ [TTSEvent.stopCall]) ∧
    (∀ st : TTSState, st.speaking = true →
      st.currentSlideIndex < (onendStep tk voices st).1.currentSlideIndex) ∧
    (tk.slides.all (fun sl => isBlank sl.lyrics) = true →
      ∀ fuel, ttsSession tk voices fuel =
        (List.range tk.slides.length).map TTSEvent.scrollCmd ++
          [TTSEvent.stopCall] ∧
        speakTexts (ttsSession tk voices fuel) = []) := by
  refine ⟨?_, ?_, ?_⟩
  · rcases run_shape tk voices true 0 with ⟨g1, g2, pre, g3⟩ | ⟨g1, g2, g3, g4⟩
    · refine ⟨pre, ?_⟩
      simp [ttsSession, g3,
        deliver_not_speaking tk voices tk.slides.length _ g1]
    · obtain ⟨pre2, hp2⟩ :=
        deliver_stops tk voices tk.slides.length _ g1 g2 g4 (by omega)
      refine ⟨(speakAndAdvanceRun tk voices true 0).2 ++ pre2, ?_⟩
      simp [ttsSession, hp2]
  · intro st hsp
    have h := run_cursor_ge tk voices st.playing (st.currentSlideIndex + 1)
    simp only [onendStep]
    omega
  · intro hall fuel
    have hall2 : ∀ sl ∈ tk.slides, isBlank sl.lyrics = true := by
      rw [List.all_eq_true] at hall
      intro sl hsl
      exact hall sl hsl
    have hrun := run_all_blank tk voices hall2 0 (Nat.zero_le _)
    have hkey : ttsSession tk voices fuel =
        (List.range tk.slides.length).map TTSEvent.scrollCmd ++
          [TTSEvent.stopCall] := by
      have hns : (speakAndAdvanceRun tk voices true 0).1.speaking = false := by
        rw [hrun]
      rw [ttsSession, deliver_not_speaking tk voices fuel _ hns, hrun]
      simp [List.range_eq_range']
    refine ⟨hkey, ?_⟩
    rw [hkey]
    have : ∀ (l : List Nat),
        speakTexts (l.map TTSEvent.scrollCmd ++ [TTSEvent.stopCall]) = [] := by
      intro l
      induction l with
      | nil => rfl
      | cons a t ih =>
          rw [List.map_cons, List.cons_append]
          show speakTexts (t.map TTSEvent.scrollCmd ++ [TTSEvent.stopCall]) = []
          exact ih
    exact this (List.range tk.slides.length)

theorem claim_C10_termination_witness :
    (0 : Nat) <
      (onendStep tikTokABC []
        { currentSlideIndex := 0, speaking := true, playing := true
        }).1.currentSlideIndex :=
  (claim_C10_termination tikTokABC []).2.1
    { currentSlideIndex := 0, speaking := true, playing := true } rfl

/-- C4: at a live, non-paused sample with nonzero duration the handler acts
exactly by the target formula floor(currentTime / (duration / slideCount)),
scrolling precisely when the target differs from the last-displayed index and
is below the slide count and recording it as last-displayed; concretely, with
4 slides and 20 seconds, sampling at 0, 5, 10, 15, 19 displays slides 0, 1,
2, 3, 3. -/
theorem claim_C4_time_proportional (n : Nat) (d t : ℚ) (last : Int)
    (hd : d ≠ 0) :
    (timeupdateHandler n
        (some { currentTime := t, duration := d, paused := false }) last =
      if Int.floor (t / (d / (n : ℚ))) ≠ last ∧
          Int.floor (t / (d / (n : ℚ))) < (n : Int) then
        (Int.floor (t / (d / (n : ℚ))), [Int.floor (t / (d / (n : ℚ)))])
      else (last, [])) ∧
    displayedSeq 4 20 (-1) [0, 5, 10, 15, 19] = [0, 1, 2, 3, 3] := by
  constructor
  · simp [timeupdateHandler, hd]
  · have e0 : Int.floor ((0 : ℚ) / (20 / (4 : ℚ))) = 0 := by norm_num
    have e1 : Int.floor ((5 : ℚ) / (20 / (4 : ℚ))) = 1 := by norm_num
    have e2 : Int.floor ((10 : ℚ) / (20 / (4 : ℚ))) = 2 := by norm_num
    have e3 : Int.floor ((15 : ℚ) / (20 / (4 : ℚ))) = 3 := by norm_num
    have e4 : Int.floor ((19 : ℚ) / (20 / (4 : ℚ))) = 3 := by norm_num
    norm_num [displayedSeq, timeupdateHandler, e0, e1, e2, e3, e4]

theorem claim_C4_time_proportional_witness :
    displayedSeq 4 20 (-1) [0, 5, 10, 15, 19] = [0, 1, 2, 3, 3] :=
  (claim_C4_time_proportional 4 20 19 3 (by simp)).2

theorem foldl_or_eq (f : SlideEntry → Bool) :
    ∀ (entries : List SlideEntry) (b : Bool),
      entries.foldl (fun acc e => acc || f e) b = (b || entries.any f) := by
  intro entries
  induction entries with
  | nil =>
      intro b
      simp
  | cons e t ih =>
      intro b
      simp [List.foldl_cons, ih, Bool.or_assoc]

/-- C5: the containment mode is a pure function of the visibility batch: free
exactly when some intersecting entry of the batch is a first or last slide,
locked otherwise; for a five-slide item with a single visible slide, the mode
is free exactly at indices 0 and 4. -/
theorem claim_C5_edge_containment (n : Nat) (entries : List SlideEntry) :
    (slideObserverBatch n entries = Containment.free ↔
      ∃ e ∈ entries, e.isIntersecting = true ∧
        (e.index = 0 ∨ e.index = n - 1)) ∧
    (∀ i : Nat,
      slideObserverBatch 5 [{ index := i, isIntersecting := true }] =
        if i = 0 ∨ i = 4 then Containment.free else Containment.locked) := by
  have hfold : slideObserverBatch n entries =
      (if entries.any
          (fun e => e.isIntersecting && (e.index == 0 || e.index == n - 1))
        then Containment.free else Containment.locked) := by
    rw [slideObserverBatch, foldl_or_eq]
    simp
  constructor
  · rw [hfold]
    constructor
    · intro hfree
      by_cases hany : entries.any
          (fun e => e.isIntersecting && (e.index == 0 || e.index == n - 1)) = true
      · obtain ⟨e, he, hp⟩ := List.any_eq_true.mp hany
        refine ⟨e, he, ?_⟩
        simpa using hp
      · rw [if_neg (by simpa using hany)] at hfree
        cases hfree
    · rintro ⟨e, he, hint, hidx⟩
      have hany : entries.any
          (fun e => e.isIntersecting && (e.index == 0 || e.index == n - 1)) = true := by
        refine List.any_eq_true.mpr ⟨e, he, ?_⟩
        rcases hidx with h0 | h4
        · simp [hint, h0]
        · simp [hint, h4]
      simp [hany]
  · intro i
    by_cases hi : i = 0 ∨ i = 4
    · rw [if_pos hi]
      rcases hi with rfl | rfl <;> simp [slideObserverBatch]
    · have h1 : i ≠ 0 := fun h => hi (Or.inl h)
      have h4 : i ≠ 4 := fun h => hi (Or.inr h)
      rw [if_neg hi]
      simp [slideObserverBatch, h1, h4]

/-- C6: a stale callback firing after stop is inert.  A speech completion
callback with the playing flag down only re-enters speakAndAdvance, which
calls the (idempotent) stop and produces no scroll, no utterance and a dead
session state; the speech error callback on an idle state only surfaces the
error and leaves the state unchanged; a time-progress sample is discarded
when the audio handle is null or paused, touching neither the last-displayed
index nor the DOM. -/
theorem claim_C6_stale_callbacks :
    (∀ (tk : TikTok) (voices : List VoiceInfo) (c : Nat) (sp : Bool),
      (onendStep tk voices
        { currentSlideIndex := c, speaking := sp, playing := false }).2 =
          [TTSEvent.completion, TTSEvent.stopCall] ∧
      (onendStep tk voices
        { currentSlideIndex := c, speaking := sp, playing := false
        }).1.speaking = false ∧
      (onendStep tk voices
        { currentSlideIndex := c, speaking := sp, playing := false
        }).1.playing = false) ∧
    (∀ s : PlayState, Idle s → ∀ ec : String,
      (speechOnError ec s).1 = s ∧
      (speechOnError ec s).2 =
        [Effect.showError ("Speech synthesis failed: " ++ ec),
         Effect.setPausedUI]) ∧
    (∀ (n : Nat) (last : Int), timeupdateHandler n none last = (last, [])) ∧
    (∀ (n : Nat) (t d : ℚ) (last : Int),
      timeupdateHandler n
        (some { currentTime := t, duration := d, paused := true }) last =
          (last, [])) := by
  refine ⟨?_, ?_, ?_, ?_⟩
  · intro tk voices c sp
    have h := run_eq_stop tk voices false (c + 1) (Or.inr rfl)
    refine ⟨?_, ?_, ?_⟩ <;> simp [onendStep, h]
  · intro s h ec
    constructor
    · show (stopSlideshow s).1 = s
      rw [stopSlideshow_idle s h]
    · show Effect.showError ("Speech synthesis failed: " ++ ec) ::
        (stopSlideshow s).2 =
          [Effect.showError ("Speech synthesis failed: " ++ ec),
           Effect.setPausedUI]
      rw [stopSlideshow_idle s h]
  · intro n last
    rfl
  · intro n t d last
    simp [timeupdateHandler]

theorem claim_C6_stale_callbacks_witness :
    (speechOnError "canceled" initState).1 = initState ∧
    (speechOnError "canceled" initState).2 =
      [Effect.showError ("Speech synthesis failed: " ++ "canceled"),
       Effect.setPausedUI] :=
  claim_C6_stale_callbacks.2.1 initState ⟨rfl, rfl, rfl, rfl⟩ "canceled"

end TikTokLearning
